import Mathlib

/-
Verification of the FinPer chatbot core (src/app.py and src/data_handler.py):
a shallow embedding of the command parser and the budget-accounting engine,
plus theorems checking the specification's claims against it.

Modelling conventions:
* The transaction ledger (the Excel file) is a `List Txn`; the budget store
  (budgets.json, a dict keyed by str(phone)) is an association list keyed by
  the phone number itself (str is injective on integers, so the key set is
  isomorphic).  Handlers thread a `State` value instead of doing file I/O.
* The wall clock (`datetime.now()`) and the random transaction id are supplied
  by an `Env` parameter; only the year and the month of a date are retained,
  because nothing in the program reads any finer component.
* Python ints are `Int`; `text.lower().split()` is modelled by `pyLower` and
  `pySplit` (ASCII case folding, whitespace runs, no empty tokens), and
  `int(token)` by `pyInt` (optional sign, digits with single underscore
  separators).
* The percentage is the one place the source leaves exact arithmetic: it
  computes round(spent / budget * 100, 1) over IEEE-754 doubles.  Binary64
  rounding is NOT modelled here; `percentage_tenths` stores the idealized
  exact-rational value of that expression (ties to even, integer arithmetic
  in `roundHalfEvenDiv`).  The idealization can differ from the program's
  float pipeline in the last decimal (spent 23, budget 80: the double
  23/80*100 is 28.749999999999996, so the program prints 28.7 while the
  exact tie 28.75 rounds to 28.8), and the int 0 the source stores for
  budget <= 0 renders here as "0.0" where the program prints "0".  No
  theorem below depends on the idealized digits; the field exists so the
  report's spent line renders.
-/

/-- Characters Python's str.split() treats as whitespace (the ASCII ones). -/
def isPyWs (c : Char) : Bool :=
  c == ' ' || c == '\t' || c == '\n' || c == '\r' || c.toNat == 11 || c.toNat == 12

/-- Helper of `pySplit`: accumulate the current word and break on whitespace
runs, never emitting empty tokens (the semantics of str.split() with no
separator argument). -/
def pyWords : List Char → List Char → List String
  | acc, [] => if acc.isEmpty then [] else [String.mk acc]
  | acc, c :: cs =>
    if isPyWs c then
      if acc.isEmpty then pyWords [] cs else String.mk acc :: pyWords [] cs
    else
      pyWords (acc.concat c) cs

/-- Model of Python's `text.split()` (split on whitespace runs, drop empties). -/
def pySplit (s : String) : List String := pyWords [] s.data

/-- Model of Python's `text.lower()` (ASCII case folding). -/
def pyLower (s : String) : String := String.mk (s.data.map Char.toLower)

/-- Model of Python's `text.upper()` (ASCII case folding). -/
def pyUpper (s : String) : String := String.mk (s.data.map Char.toUpper)

/-- Helper of `pyDigits`: after a leading digit, accept digits with single
underscores strictly between digits (Python 3 integer-literal grammar). -/
def pyDigitsAux : List Char → Bool
  | [] => true
  | '_' :: [] => false
  | '_' :: c :: cs => c.isDigit && pyDigitsAux cs
  | c :: cs => c.isDigit && pyDigitsAux cs

/-- Digit-run acceptor for `pyInt`. -/
def pyDigits : List Char → Bool
  | [] => false
  | c :: cs => c.isDigit && pyDigitsAux cs

/-- Numeric value of an accepted digit run (underscores ignored). -/
def digitsVal (cs : List Char) : Nat :=
  (cs.filter (fun c => c != '_')).foldl (fun acc c => acc * 10 + (c.toNat - 48)) 0

/-- Model of Python's `int(token)` on a whitespace-free token: optional single
sign, then digits with single underscore separators; `none` models ValueError. -/
def pyInt (s : String) : Option Int :=
  match s.data with
  | '+' :: cs => if pyDigits cs then some (digitsVal cs) else none
  | '-' :: cs => if pyDigits cs then some (-(digitsVal cs : Int)) else none
  | cs => if pyDigits cs then some (digitsVal cs) else none

/-- Helper of `commify`: walking the reversed digit list, put a comma before
every third digit (the rendering of Python's format spec `{:,}`). -/
def commasRev : Nat → List Char → List Char
  | _, [] => []
  | k, c :: cs =>
    if k ≠ 0 ∧ k % 3 = 0 then ',' :: c :: commasRev (k + 1) cs
    else c :: commasRev (k + 1) cs

/-- Model of Python's `f"{n:,}"`: thousands separators, minus sign in front. -/
def commify (n : Int) : String :=
  (if n < 0 then "-" else "") ++
    String.mk ((commasRev 0 (toString n.natAbs).data.reverse).reverse)

/-- Rendering of the one-decimal percentage, given as a number of tenths
(1250 tenths renders "125.0", as Python prints the float 125.0).  For a
budget <= 0 the source stores the int 0 and prints "0"; here 0 tenths
renders "0.0" — a known, documented gap of the idealized percentage that
no theorem below relies on. -/
def fmtTenths (t : Int) : String :=
  (if t < 0 then "-" else "") ++ toString (t.natAbs / 10) ++ "." ++ toString (t.natAbs % 10)

/-- Rounding of the fraction m / n (for n > 0) to the nearest integer, ties
to even, computed with integer arithmetic: `m / n` is floor division and
`r2` is 2·n·(fractional part).  This is the exact-arithmetic idealization
of Python's round(); the source applies round() to an IEEE double, which
can land on the other side of a tie (see the header note). -/
def roundHalfEvenDiv (m n : Int) : Int :=
  let f := m / n
  let r2 := 2 * (m - f * n)
  if r2 < n then f
  else if n < r2 then f + 1
  else if f % 2 = 0 then f else f + 1

/-- Code-point comparison of character lists: the model of Python's `<` on
strings (lexicographic, shorter prefix first). -/
def charsLt : List Char → List Char → Bool
  | _, [] => false
  | [], _ :: _ => true
  | a :: as, b :: bs => decide (a < b) || (a == b && charsLt as bs)

/-- Python string `<`. -/
def strLtB (s t : String) : Bool := charsLt s.data t.data

/-- Python tuple comparison on (category, amount) pairs, as used by
`sorted(status["by_category"].items())`. -/
def pairLeB (p q : String × Int) : Bool :=
  strLtB p.1 q.1 || (p.1 == q.1 && decide (p.2 ≤ q.2))

/-- Insertion step of the sorting model. -/
def insertPair (p : String × Int) : List (String × Int) → List (String × Int)
  | [] => [p]
  | q :: qs => if pairLeB p q then p :: q :: qs else q :: insertPair p qs

/-- Model of Python's `sorted` on dict items (insertion sort; the keys are
distinct, so any stable comparison sort yields this order). -/
def sortPairs : List (String × Int) → List (String × Int)
  | [] => []
  | p :: ps => insertPair p (sortPairs ps)

/-- Python dict assignment `d[k] = v` on an association list: replace the
value in place, or append the key at the end. -/
def setAssoc : List (Int × Int) → Int → Int → List (Int × Int)
  | [], k, v => [(k, v)]
  | (k', v') :: rest, k, v =>
    if k' = k then (k, v) :: rest else (k', v') :: setAssoc rest k v

/-- Python truthiness of an optional integer (`if budget:`): None and 0 are
falsy, every other integer is truthy. -/
def pyTruthyInt : Option Int → Bool
  | none => false
  | some n => n != 0

-- Data model (src/data_handler.py).

/-- Calendar instant, year and month only (`datetime.now()`; no finer
component of a date is ever read by the program). -/
structure Date where
  year : Nat
  month : Nat
deriving DecidableEq

/-- One ledger row, with the columns the program reads back: ID, Fecha (year
and month), Tipo, Cantidad, Divisa, Tipo de Cambio, Categoría, Detalle,
Telefono.  The Notas / Productos / Ubicacion columns are always None at these
call sites and are never read, so they are omitted. -/
structure Txn where
  id : String
  year : Nat
  month : Nat
  tipo : String
  cantidad : Int
  divisa : String
  tipoCambio : Int
  categoria : String
  detalle : String
  telefono : Int
deriving DecidableEq

/-- The storage collaborators: the Excel-backed transaction ledger and the
JSON budget store. -/
structure State where
  ledger : List Txn
  budgets : List (Int × Int)
deriving DecidableEq

/-- Per-invocation environment: the wall clock and the generated random
transaction id. -/
structure Env where
  now : Date
  txnId : String
deriving DecidableEq

/-- DEFAULT_TIPO_CAMBIO, the module-level fixed exchange rate. -/
def tipoCambioDefault : Int := 3900

/-- add_transaction: append one row to the ledger. -/
def add_transaction (st : State) (t : Txn) : State :=
  { st with ledger := st.ledger ++ [t] }

/-- get_budget: budgets.get(str(phone)). -/
def get_budget (st : State) (phone : Int) : Option Int :=
  st.budgets.lookup phone

/-- set_budget: budgets[str(phone)] = amount. -/
def set_budget (st : State) (phone amount : Int) : State :=
  { st with budgets := setAssoc st.budgets phone amount }

/-- The row conversion to COP: Cantidad * Tipo de Cambio when Divisa is USD,
Cantidad unchanged otherwise. -/
def cantidad_cop (t : Txn) : Int :=
  if t.divisa == "USD" then t.cantidad * t.tipoCambio else t.cantidad

/-- The filter mask of get_monthly_expenses_cop: phone, expense type, and
period all match. -/
def expenseRow (phone : Int) (year month : Nat) (t : Txn) : Bool :=
  t.telefono == phone && t.tipo == "egreso" && t.year == year && t.month == month

/-- get_monthly_expenses_cop: total and per-category sums, in COP, of the
matching expense rows.  The by-category dict built by pandas groupby is
modelled as an association list over the distinct categories (dict key order
carries no meaning; lookups are what is modelled). -/
def get_monthly_expenses_cop (ledger : List Txn) (phone : Int) (year month : Nat) :
    Int × List (String × Int) :=
  if ledger.isEmpty then (0, [])
  else
    let expenses := ledger.filter (expenseRow phone year month)
    if expenses.isEmpty then (0, [])
    else
      let total := (expenses.map cantidad_cop).sum
      let by_category := ((expenses.map (fun t => t.categoria)).dedup).map
        (fun c => (c, ((expenses.filter (fun t => t.categoria == c)).map cantidad_cop).sum))
      (total, by_category)

/-- The derived status dict.  The optional keys budget / percentage /
remaining exist only when has_budget; here they default to 0 and are read
only under has_budget.  `percentage_tenths` holds the idealized
exact-rational value of round(spent/budget*100, 1) as a count of tenths
(0 for budget ≤ 0); the source stores an IEEE double — see the header
note on this deliberate modelling gap. -/
structure BudgetStatus where
  has_budget : Bool
  budget : Int := 0
  spent_cop : Int
  percentage_tenths : Int := 0
  remaining : Int := 0
  by_category : List (String × Int)
deriving DecidableEq

/-- get_budget_status: combine the stored budget with the current month's
expense aggregation. -/
def get_budget_status (st : State) (now : Date) (phone : Int) : BudgetStatus :=
  let sp := get_monthly_expenses_cop st.ledger phone now.year now.month
  match get_budget st phone with
  | none =>
    { has_budget := false, spent_cop := sp.1, by_category := sp.2 }
  | some budget =>
    { has_budget := true
      budget := budget
      spent_cop := sp.1
      percentage_tenths := if 0 < budget then roundHalfEvenDiv (sp.1 * 1000) budget else 0
      remaining := budget - sp.1
      by_category := sp.2 }

-- Command handlers (src/app.py).

/-- The fixed Spanish month-name table of format_budget_status (index 0 is a
placeholder). -/
def months_es : List String :=
  ["", "Enero", "Febrero", "Marzo", "Abril", "Mayo", "Junio",
   "Julio", "Agosto", "Septiembre", "Octubre", "Noviembre", "Diciembre"]

/-- One rendered line of the by-category block. -/
def catLine (p : String × Int) : String :=
  "  - " ++ p.1 ++ ": $" ++ commify p.2 ++ " COP"

/-- The lines list built by format_budget_status, before joining. -/
def format_budget_lines (status : BudgetStatus) (now : Date) : List String :=
  let header :=
    "Estado del presupuesto - " ++ months_es.getD now.month "" ++ " " ++ toString now.year
  let body :=
    if !status.has_budget then
      ["Gastado este mes: $" ++ commify status.spent_cop ++ " COP",
       "",
       "No tienes un tope mensual configurado.",
       "Usa *tope <monto>* para definirlo."]
    else
      ["Tope mensual: $" ++ commify status.budget ++ " COP",
       "Gastado: $" ++ commify status.spent_cop ++ " COP (" ++
         fmtTenths status.percentage_tenths ++ "%)"] ++
      (if 0 ≤ status.remaining then
        ["Disponible: $" ++ commify status.remaining ++ " COP"]
      else
        ["EXCEDIDO por: $" ++ commify |status.remaining| ++ " COP"])
  let catBlock :=
    if status.by_category.isEmpty then []
    else ["", "Por categoria:"] ++ (sortPairs status.by_category).map catLine
  header :: body ++ catBlock

/-- format_budget_status: the joined report text. -/
def format_budget_status (status : BudgetStatus) (now : Date) : String :=
  "\n".intercalate (format_budget_lines status now)

/-- msg_ayuda: the fixed help text. -/
def msg_ayuda : String :=
  "Comandos disponibles:\n\n" ++
  "*gasto <monto> <categoria> <detalle>*\n" ++
  "  Registrar un gasto en COP\n" ++
  "  Ej: gasto 50000 alimentacion almuerzo\n\n" ++
  "*gasto <monto> USD <categoria> <detalle>*\n" ++
  "  Registrar un gasto en dolares\n" ++
  "  Ej: gasto 20 USD tecnologia hosting\n\n" ++
  "*ingreso <monto> <categoria> <detalle>*\n" ++
  "  Registrar un ingreso\n" ++
  "  Ej: ingreso 3000000 salario mensual\n\n" ++
  "*tope <monto>*\n" ++
  "  Definir tope mensual en COP\n" ++
  "  Ej: tope 2000000\n\n" ++
  "*estado*\n" ++
  "  Ver resumen del mes (gastado, % y disponible)\n\n" ++
  "*ayuda*\n" ++
  "  Ver este mensaje"

/-- handle_gasto: parse `gasto <monto> [USD] <categoria> <detalle...>`,
record the expense, and reply with the confirmation plus the budget report.
Indexing mirrors the source: args[0] is the amount, args[1] may be a
currency code, args[next_idx] the category, the rest the detail. -/
def handle_gasto (st : State) (env : Env) (phone : Int) (args : List String) :
    State × String :=
  if args.length < 2 then
    (st, "Formato: *gasto <monto> <categoria> <detalle>*\n" ++
         "Ejemplo: gasto 50000 alimentacion almuerzo\n" ++
         "Para USD: gasto 20 USD tecnologia hosting")
  else
    match pyInt (args.getD 0 "") with
    | none => (st, "El monto debe ser un numero. Ejemplo: *gasto 50000 alimentacion almuerzo*")
    | some cantidad =>
      let hasCur := decide (1 < args.length) &&
        (pyUpper (args.getD 1 "") == "USD" || pyUpper (args.getD 1 "") == "COP")
      let nextIdx := if hasCur then 2 else 1
      let divisa := if hasCur then pyUpper (args.getD 1 "") else "COP"
      let categoria := if nextIdx < args.length then args.getD nextIdx "" else "general"
      let detalle :=
        if nextIdx + 1 < args.length then " ".intercalate (args.drop (nextIdx + 1)) else ""
      let t : Txn :=
        { id := env.txnId, year := env.now.year, month := env.now.month,
          tipo := "egreso", cantidad := cantidad, divisa := divisa,
          tipoCambio := tipoCambioDefault, categoria := categoria,
          detalle := detalle, telefono := phone }
      let st2 := add_transaction st t
      let cantidadCop := if divisa == "USD" then cantidad * tipoCambioDefault else cantidad
      let response :=
        "Gasto registrado: $" ++ commify cantidad ++ " " ++ divisa ++
        (if divisa == "USD" then " ($" ++ commify cantidadCop ++ " COP)" else "") ++
        " en " ++ categoria ++
        (if detalle == "" then "" else " - " ++ detalle)
      let status := get_budget_status st2 env.now phone
      (st2, response ++ "\n\n" ++ format_budget_status status env.now)

/-- handle_ingreso: parse `ingreso <monto> [USD] <categoria> <detalle...>`
and record the income; no budget report is appended to the reply. -/
def handle_ingreso (st : State) (env : Env) (phone : Int) (args : List String) :
    State × String :=
  if args.length < 2 then
    (st, "Formato: *ingreso <monto> <categoria> <detalle>*\n" ++
         "Ejemplo: ingreso 3000000 salario mensual")
  else
    match pyInt (args.getD 0 "") with
    | none => (st, "El monto debe ser un numero. Ejemplo: *ingreso 3000000 salario mensual*")
    | some cantidad =>
      let hasCur := decide (1 < args.length) &&
        (pyUpper (args.getD 1 "") == "USD" || pyUpper (args.getD 1 "") == "COP")
      let nextIdx := if hasCur then 2 else 1
      let divisa := if hasCur then pyUpper (args.getD 1 "") else "COP"
      let categoria := if nextIdx < args.length then args.getD nextIdx "" else "general"
      let detalle :=
        if nextIdx + 1 < args.length then " ".intercalate (args.drop (nextIdx + 1)) else ""
      let t : Txn :=
        { id := env.txnId, year := env.now.year, month := env.now.month,
          tipo := "ingreso", cantidad := cantidad, divisa := divisa,
          tipoCambio := tipoCambioDefault, categoria := categoria,
          detalle := detalle, telefono := phone }
      let st2 := add_transaction st t
      (st2, "Ingreso registrado: $" ++ commify cantidad ++ " " ++ divisa ++ " en " ++ categoria)

/-- handle_tope: with no argument, report the stored budget (`if budget:` is
Python truthiness, so a stored 0 takes the no-budget branch); with an
argument, parse it and overwrite the budget. -/
def handle_tope (st : State) (phone : Int) (args : List String) : State × String :=
  if args.isEmpty then
    let budget := get_budget st phone
    if pyTruthyInt budget then
      (st, "Tu tope mensual actual es: $" ++ commify (budget.getD 0) ++
           " COP\nPara cambiarlo: *tope <monto>*")
    else
      (st, "No tienes un tope mensual. Usa: *tope <monto>*\nEjemplo: tope 2000000")
  else
    match pyInt (args.getD 0 "") with
    | none => (st, "El monto debe ser un numero. Ejemplo: *tope 2000000*")
    | some amount =>
      (set_budget st phone amount,
       "Tope mensual actualizado: $" ++ commify amount ++ " COP")

/-- handle_estado: the formatted current-month budget report. -/
def handle_estado (st : State) (now : Date) (phone : Int) : String :=
  format_budget_status (get_budget_status st now phone) now

/-- handle_message: lowercase, tokenize, and dispatch on the first token. -/
def handle_message (st : State) (env : Env) (phone : Int) (text : String) :
    State × String :=
  match pySplit (pyLower text) with
  | [] => (st, msg_ayuda)
  | command :: rest =>
    if command == "gasto" || command == "egreso" then
      handle_gasto st env phone rest
    else if command == "ingreso" || command == "entrada" then
      handle_ingreso st env phone rest
    else if command == "tope" || command == "presupuesto" then
      handle_tope st phone rest
    else if command == "estado" || command == "resumen" then
      (st, handle_estado st env.now phone)
    else if command == "ayuda" then
      (st, msg_ayuda)
    else
      (st, "No entendi el comando. Escribe *ayuda* para ver los comandos disponibles.")

-- Shared lemmas about the embedding's helper functions.

/-- Totality of the code-point comparison: two character lists are comparable. -/
theorem charsLt_total : ∀ as bs : List Char,
    charsLt as bs = true ∨ as = bs ∨ charsLt bs as = true
  | [], [] => Or.inr (Or.inl rfl)
  | [], _ :: _ => Or.inl rfl
  | _ :: _, [] => Or.inr (Or.inr rfl)
  | a :: as, b :: bs => by
    rcases lt_trichotomy a b with h | h | h
    · left
      simp [charsLt, h]
    · subst h
      rcases charsLt_total as bs with h2 | h2 | h2
      · left
        simp [charsLt, h2]
      · right
        left
        rw [h2]
      · right
        right
        simp [charsLt, h2]
    · right
      right
      simp [charsLt, h]

/-- Transitivity of the code-point comparison. -/
theorem charsLt_trans : ∀ as bs cs : List Char,
    charsLt as bs = true → charsLt bs cs = true → charsLt as cs = true := by
  intro as
  induction as with
  | nil =>
    intro bs cs h1 h2
    cases bs with
    | nil => simp [charsLt] at h1
    | cons b bs =>
      cases cs with
      | nil => simp [charsLt] at h2
      | cons c cs => simp [charsLt]
  | cons a as ih =>
    intro bs cs h1 h2
    cases bs with
    | nil => simp [charsLt] at h1
    | cons b bs =>
      cases cs with
      | nil => simp [charsLt] at h2
      | cons c cs =>
        simp only [charsLt, Bool.or_eq_true, Bool.and_eq_true, decide_eq_true_eq,
          beq_iff_eq] at h1 h2 ⊢
        rcases h1 with h1 | ⟨hab, h1⟩
        · rcases h2 with h2 | ⟨hbc, h2⟩
          · exact Or.inl (lt_trans h1 h2)
          · exact Or.inl (hbc ▸ h1)
        · rcases h2 with h2 | ⟨hbc, h2⟩
          · left
            rw [hab]
            exact h2
          · exact Or.inr ⟨hab.trans hbc, ih bs cs h1 h2⟩

/-- Totality of the string comparison. -/
theorem strLtB_total (s t : String) : strLtB s t = true ∨ s = t ∨ strLtB t s = true := by
  rcases charsLt_total s.data t.data with h | h | h
  · exact Or.inl h
  · refine Or.inr (Or.inl ?_)
    cases s
    cases t
    exact congrArg String.mk h
  · exact Or.inr (Or.inr h)

/-- Totality of the pair comparison used by the sorting model. -/
theorem pairLeB_total (p q : String × Int) : pairLeB p q = true ∨ pairLeB q p = true := by
  rcases strLtB_total p.1 q.1 with h | h | h
  · left
    simp [pairLeB, h]
  · rcases Int.le_total p.2 q.2 with h2 | h2
    · left
      simp [pairLeB, h, h2]
    · right
      simp [pairLeB, h.symm, h2]
  · right
    simp [pairLeB, h]

/-- Transitivity of the pair comparison. -/
theorem pairLeB_trans (p q r : String × Int) :
    pairLeB p q = true → pairLeB q r = true → pairLeB p r = true := by
  simp only [pairLeB, strLtB, Bool.or_eq_true, Bool.and_eq_true, decide_eq_true_eq,
    beq_iff_eq]
  rintro (h1 | ⟨h1, h1'⟩) (h2 | ⟨h2, h2'⟩)
  · exact Or.inl (charsLt_trans _ _ _ h1 h2)
  · left
    rw [← h2]
    exact h1
  · left
    rw [h1]
    exact h2
  · exact Or.inr ⟨h1.trans h2, le_trans h1' h2'⟩

/-- Inserting an element permutes consing it. -/
theorem insertPair_perm (p : String × Int) (l : List (String × Int)) :
    List.Perm (insertPair p l) (p :: l) := by
  induction l with
  | nil => simp [insertPair]
  | cons q qs ih =>
    by_cases h : pairLeB p q = true
    · simp [insertPair, h]
    · simp only [insertPair, if_neg h]
      exact (ih.cons q).trans (List.Perm.swap p q qs)

/-- Insertion preserves pairwise order, given totality and transitivity of
the comparison. -/
theorem pairwise_insertPair (p : String × Int) (l : List (String × Int))
    (h : l.Pairwise (fun a b => pairLeB a b = true)) :
    (insertPair p l).Pairwise (fun a b => pairLeB a b = true) := by
  induction l with
  | nil => simp [insertPair]
  | cons q qs ih =>
    rw [List.pairwise_cons] at h
    obtain ⟨hq, hqs⟩ := h
    by_cases hpq : pairLeB p q = true
    · simp only [insertPair, if_pos hpq]
      refine List.Pairwise.cons ?_ (List.Pairwise.cons hq hqs)
      intro x hx
      rcases List.mem_cons.mp hx with rfl | hx
      · exact hpq
      · exact pairLeB_trans p q x hpq (hq x hx)
    · simp only [insertPair, if_neg hpq]
      refine List.Pairwise.cons ?_ (ih hqs)
      intro x hx
      rcases List.mem_cons.mp ((insertPair_perm p qs).mem_iff.mp hx) with rfl | hx
      · rcases pairLeB_total q x with h | h
        · exact h
        · exact absurd h hpq
      · exact hq x hx

/-- The sorting model permutes its input. -/
theorem sortPairs_perm (l : List (String × Int)) : List.Perm (sortPairs l) l := by
  induction l with
  | nil => simp [sortPairs]
  | cons p ps ih => exact (insertPair_perm p (sortPairs ps)).trans (ih.cons p)

/-- The sorting model is pairwise ordered under the pair comparison. -/
theorem sortPairs_pairwise (l : List (String × Int)) :
    (sortPairs l).Pairwise (fun a b => pairLeB a b = true) := by
  induction l with
  | nil => simp [sortPairs]
  | cons p ps ih => exact pairwise_insertPair p (sortPairs ps) ih

/-- After setting key k, looking k up yields the new value. -/
theorem lookup_setAssoc_self (l : List (Int × Int)) (k v : Int) :
    (setAssoc l k v).lookup k = some v := by
  induction l with
  | nil => simp [setAssoc, List.lookup]
  | cons q rest ih =>
    obtain ⟨k', v'⟩ := q
    by_cases h : k' = k
    · simp [setAssoc, h, List.lookup]
    · have hkk : (k == k') = false := beq_eq_false_iff_ne.mpr (Ne.symm h)
      simp [setAssoc, h, List.lookup, hkk, ih]

/-- Setting key k leaves every other key's binding unchanged. -/
theorem lookup_setAssoc_ne (l : List (Int × Int)) (k v p : Int) (hp : p ≠ k) :
    (setAssoc l k v).lookup p = l.lookup p := by
  induction l with
  | nil =>
    have hpk : (p == k) = false := beq_eq_false_iff_ne.mpr hp
    simp [setAssoc, List.lookup, hpk]
  | cons q rest ih =>
    obtain ⟨k', v'⟩ := q
    by_cases h : k' = k
    · subst h
      have hpk : (p == k') = false := beq_eq_false_iff_ne.mpr hp
      simp [setAssoc, List.lookup, hpk]
    · by_cases hpk : p = k'
      · subst hpk
        simp [setAssoc, h, List.lookup]
      · have hpk' : (p == k') = false := beq_eq_false_iff_ne.mpr hpk
        simp [setAssoc, h, List.lookup, hpk', ih]

/-- Looking up a key in the pairing of a list of keys with a function. -/
theorem lookup_map_pair (f : String → Int) (c : String) (cs : List String) :
    (cs.map (fun x => (x, f x))).lookup c = if c ∈ cs then some (f c) else none := by
  induction cs with
  | nil => simp [List.lookup]
  | cons x xs ih =>
    by_cases h : c = x
    · subst h
      simp [List.lookup]
    · have hcx : (c == x) = false := beq_eq_false_iff_ne.mpr h
      simp [List.lookup, h, hcx, ih]

-- Claim theorems.

/-- C1: handle_message always resolves to exactly one reply string: text
that tokenizes to zero tokens yields the fixed help text, and a first token
outside every synonym set yields the fixed unrecognized-command reply; no
user-input error escapes the handler. -/
theorem claim1_dispatch_total (st : State) (env : Env) (phone : Int) (text : String) :
    (pySplit (pyLower text) = [] → handle_message st env phone text = (st, msg_ayuda)) ∧
    (∀ c rest, pySplit (pyLower text) = c :: rest →
      c ∉ (["gasto", "egreso", "ingreso", "entrada", "tope", "presupuesto",
            "estado", "resumen", "ayuda"] : List String) →
      handle_message st env phone text =
        (st, "No entendi el comando. Escribe *ayuda* para ver los comandos disponibles.")) := by
  constructor
  · intro h
    simp [handle_message, h]
  · intro c rest h hc
    simp only [List.mem_cons, List.not_mem_nil, or_false, not_or] at hc
    obtain ⟨h1, h2, h3, h4, h5, h6, h7, h8, h9⟩ := hc
    have e1 : (c == "gasto") = false := beq_eq_false_iff_ne.mpr h1
    have e2 : (c == "egreso") = false := beq_eq_false_iff_ne.mpr h2
    have e3 : (c == "ingreso") = false := beq_eq_false_iff_ne.mpr h3
    have e4 : (c == "entrada") = false := beq_eq_false_iff_ne.mpr h4
    have e5 : (c == "tope") = false := beq_eq_false_iff_ne.mpr h5
    have e6 : (c == "presupuesto") = false := beq_eq_false_iff_ne.mpr h6
    have e7 : (c == "estado") = false := beq_eq_false_iff_ne.mpr h7
    have e8 : (c == "resumen") = false := beq_eq_false_iff_ne.mpr h8
    have e9 : (c == "ayuda") = false := beq_eq_false_iff_ne.mpr h9
    simp [handle_message, h, e1, e2, e3, e4, e5, e6, e7, e8, e9]

/-- Witness for C1 at the inbound text "foo bar". -/
theorem claim1_dispatch_total_witness :
    handle_message ⟨[], []⟩ ⟨⟨2026, 10⟩, "t1"⟩ 57 "foo bar" =
      (⟨[], []⟩, "No entendi el comando. Escribe *ayuda* para ver los comandos disponibles.") :=
  (claim1_dispatch_total ⟨[], []⟩ ⟨⟨2026, 10⟩, "t1"⟩ 57 "foo bar").2 "foo" ["bar"]
    (by decide) (by decide)

/-- C4 counterexample: with a stored budget of exactly 0 the no-argument
budget query replies the no-budget message, not the stored-budget report
required by the claim ("for every stored integer value, including 0"). -/
theorem claim4_counterexample :
    get_budget ⟨[], [(57, 0)]⟩ 57 = some 0 ∧
    (handle_tope ⟨[], [(57, 0)]⟩ 57 []).2 =
      "No tienes un tope mensual. Usa: *tope <monto>*\nEjemplo: tope 2000000" ∧
    (handle_tope ⟨[], [(57, 0)]⟩ 57 []).2 ≠
      "Tu tope mensual actual es: $" ++ commify 0 ++ " COP\nPara cambiarlo: *tope <monto>*" :=
  ⟨by decide, by decide, by decide⟩

/-- C4 (amended): the no-argument budget query reports the stored budget
exactly when the stored value is nonzero (Python truthiness of `if budget:`);
when no budget is stored, or the stored value is 0, it replies the
no-budget-set message; it never mutates the state. -/
theorem claim4_tope_query (st : State) (phone : Int) :
    (∀ b, get_budget st phone = some b → b ≠ 0 →
      handle_tope st phone [] =
        (st, "Tu tope mensual actual es: $" ++ commify b ++
             " COP\nPara cambiarlo: *tope <monto>*")) ∧
    (get_budget st phone = none ∨ get_budget st phone = some 0 →
      handle_tope st phone [] =
        (st, "No tienes un tope mensual. Usa: *tope <monto>*\nEjemplo: tope 2000000")) := by
  constructor
  · intro b hb hb0
    simp [handle_tope, hb, pyTruthyInt, hb0]
  · rintro (hb | hb) <;> simp [handle_tope, hb, pyTruthyInt]

/-- Witness for C4 (amended) at a stored budget of 500. -/
theorem claim4_tope_query_witness :
    handle_tope ⟨[], [(57, 500)]⟩ 57 [] =
      (⟨[], [(57, 500)]⟩, "Tu tope mensual actual es: $" ++ commify 500 ++
        " COP\nPara cambiarlo: *tope <monto>*") :=
  (claim4_tope_query ⟨[], [(57, 500)]⟩ 57).1 500 (by decide) (by decide)

/-- C6: when the amount token does not parse as an integer, record-expense
and record-income reply the numeric-format error message (the fixed text
with a worked example) and leave the ledger and the budget store untouched. -/
theorem claim6_amount_parse_failure (st : State) (env : Env) (phone : Int)
    (a b : String) (rest : List String) (h : pyInt a = none) :
    handle_gasto st env phone (a :: b :: rest) =
      (st, "El monto debe ser un numero. Ejemplo: *gasto 50000 alimentacion almuerzo*") ∧
    handle_ingreso st env phone (a :: b :: rest) =
      (st, "El monto debe ser un numero. Ejemplo: *ingreso 3000000 salario mensual*") := by
  have hlen : ¬ (a :: b :: rest).length < 2 := by
    simp only [List.length_cons]
    omega
  constructor
  · simp [handle_gasto, if_neg hlen, h]
  · simp [handle_ingreso, if_neg hlen, h]

/-- Witness for C6 at the token "abc". -/
theorem claim6_amount_parse_failure_witness :
    handle_gasto ⟨[], []⟩ ⟨⟨2026, 10⟩, "t1"⟩ 57 ["abc", "x"] =
      (⟨[], []⟩, "El monto debe ser un numero. Ejemplo: *gasto 50000 alimentacion almuerzo*") ∧
    handle_ingreso ⟨[], []⟩ ⟨⟨2026, 10⟩, "t1"⟩ 57 ["abc", "x"] =
      (⟨[], []⟩, "El monto debe ser un numero. Ejemplo: *ingreso 3000000 salario mensual*") :=
  claim6_amount_parse_failure ⟨[], []⟩ ⟨⟨2026, 10⟩, "t1"⟩ 57 "abc" "x" [] (by decide)

/-- C10: trailing tokens beyond the grammar are ignored: a status query
replies the report whatever follows the command word, and budget-set with
two or more argument tokens behaves exactly as with its first alone. -/
theorem claim10_trailing_tokens (st : State) (env : Env) (phone : Int) :
    (∀ (text : String) (c : String) (rest : List String),
      pySplit (pyLower text) = c :: rest → (c = "estado" ∨ c = "resumen") →
      handle_message st env phone text = (st, handle_estado st env.now phone)) ∧
    (∀ (a b : String) (rest : List String),
      handle_tope st phone (a :: b :: rest) = handle_tope st phone [a]) := by
  constructor
  · rintro text c rest h (rfl | rfl) <;> simp [handle_message, h]
  · intro a b rest
    simp [handle_tope]

/-- Witness for C10: "estado extra tokens" replies the plain status report,
and "tope 2000000 extra" equals "tope 2000000". -/
theorem claim10_trailing_tokens_witness :
    handle_message ⟨[], []⟩ ⟨⟨2026, 10⟩, "t1"⟩ 57 "estado extra tokens" =
      (⟨[], []⟩, handle_estado ⟨[], []⟩ ⟨2026, 10⟩ 57) ∧
    handle_tope ⟨[], []⟩ 57 ["2000000", "extra"] = handle_tope ⟨[], []⟩ 57 ["2000000"] :=
  ⟨(claim10_trailing_tokens ⟨[], []⟩ ⟨⟨2026, 10⟩, "t1"⟩ 57).1 "estado extra tokens" "estado"
      ["extra", "tokens"] (by decide) (Or.inl rfl),
   (claim10_trailing_tokens ⟨[], []⟩ ⟨⟨2026, 10⟩, "t1"⟩ 57).2 "2000000" "extra" []⟩

/-- Joining an empty token list gives the empty string. -/
theorem intercalate_nil : " ".intercalate ([] : List String) = "" := rfl

/-- C5: with at least two argument tokens and an integer amount token
(zero and negative included), the second token is consumed as the currency
exactly when it case-insensitively equals USD or COP (otherwise COP with no
cursor advance), the next token is the category (defaulting to "general"),
the remaining tokens joined by single spaces are the detail, and exactly one
transaction with those fields is appended. -/
theorem claim5_grammar (st : State) (env : Env) (phone : Int)
    (a b : String) (rest : List String) (n : Int) (h : pyInt a = some n) :
    (handle_gasto st env phone (a :: b :: rest)).1 =
      add_transaction st
        { id := env.txnId, year := env.now.year, month := env.now.month,
          tipo := "egreso", cantidad := n,
          divisa := if pyUpper b = "USD" ∨ pyUpper b = "COP" then pyUpper b else "COP",
          tipoCambio := tipoCambioDefault,
          categoria :=
            (if pyUpper b = "USD" ∨ pyUpper b = "COP" then rest else b :: rest).headD "general",
          detalle :=
            " ".intercalate (if pyUpper b = "USD" ∨ pyUpper b = "COP" then rest else b :: rest).tail,
          telefono := phone } ∧
    (handle_ingreso st env phone (a :: b :: rest)).1 =
      add_transaction st
        { id := env.txnId, year := env.now.year, month := env.now.month,
          tipo := "ingreso", cantidad := n,
          divisa := if pyUpper b = "USD" ∨ pyUpper b = "COP" then pyUpper b else "COP",
          tipoCambio := tipoCambioDefault,
          categoria :=
            (if pyUpper b = "USD" ∨ pyUpper b = "COP" then rest else b :: rest).headD "general",
          detalle :=
            " ".intercalate (if pyUpper b = "USD" ∨ pyUpper b = "COP" then rest else b :: rest).tail,
          telefono := phone } := by
  have hlen : ¬ (a :: b :: rest).length < 2 := by
    simp only [List.length_cons]
    omega
  by_cases hcur : pyUpper b = "USD" ∨ pyUpper b = "COP"
  · have hbeq : (pyUpper b == "USD" || pyUpper b == "COP") = true := by
      rcases hcur with h' | h' <;> simp [h']
    rcases rest with _ | ⟨r, rs⟩
    all_goals try rcases rs with _ | ⟨r2, rs2⟩
    all_goals constructor
    all_goals simp only [handle_gasto, handle_ingreso]
    all_goals rw [if_neg hlen]
    all_goals simp_arith [h, hbeq, hcur, add_transaction, intercalate_nil]
  · have hu := not_or.mp hcur
    have hbeq : (pyUpper b == "USD" || pyUpper b == "COP") = false := by
      simp [beq_eq_false_iff_ne.mpr hu.1, beq_eq_false_iff_ne.mpr hu.2]
    rcases rest with _ | ⟨r, rs⟩
    all_goals try rcases rs with _ | ⟨r2, rs2⟩
    all_goals constructor
    all_goals simp only [handle_gasto, handle_ingreso]
    all_goals rw [if_neg hlen]
    all_goals simp_arith [h, hbeq, hcur, add_transaction, intercalate_nil]

/-- Witness for C5: a negative USD amount with a two-word detail, recorded
by both handlers. -/
theorem claim5_grammar_witness :
    (handle_gasto ⟨[], []⟩ ⟨⟨2026, 10⟩, "t1"⟩ 57 ["-5", "usd", "tec", "big", "vm"]).1 =
      add_transaction ⟨[], []⟩
        ⟨"t1", 2026, 10, "egreso", -5, "USD", tipoCambioDefault, "tec", "big vm", 57⟩ ∧
    (handle_ingreso ⟨[], []⟩ ⟨⟨2026, 10⟩, "t1"⟩ 57 ["-5", "usd", "tec", "big", "vm"]).1 =
      add_transaction ⟨[], []⟩
        ⟨"t1", 2026, 10, "ingreso", -5, "USD", tipoCambioDefault, "tec", "big vm", 57⟩ := by
  have h := claim5_grammar ⟨[], []⟩ ⟨⟨2026, 10⟩, "t1"⟩ 57 "-5" "usd" ["tec", "big", "vm"]
    (-5) (by decide)
  have hu : pyUpper "usd" = "USD" := by decide
  rw [hu] at h
  simpa using h

/-- State effect of handle_gasto: the budget store is never touched, and the
ledger is either unchanged (validation failure) or extended by one row. -/
theorem handle_gasto_state (st : State) (env : Env) (phone : Int) (args : List String) :
    (handle_gasto st env phone args).1.budgets = st.budgets ∧
    ((handle_gasto st env phone args).1 = st ∨
      ∃ t, (handle_gasto st env phone args).1.ledger = st.ledger ++ [t]) := by
  by_cases hlen : args.length < 2
  · simp [handle_gasto, if_pos hlen]
  · simp only [handle_gasto]
    rw [if_neg hlen]
    split
    · simp
    · exact ⟨rfl, Or.inr ⟨_, rfl⟩⟩

/-- State effect of handle_ingreso: as for handle_gasto. -/
theorem handle_ingreso_state (st : State) (env : Env) (phone : Int) (args : List String) :
    (handle_ingreso st env phone args).1.budgets = st.budgets ∧
    ((handle_ingreso st env phone args).1 = st ∨
      ∃ t, (handle_ingreso st env phone args).1.ledger = st.ledger ++ [t]) := by
  by_cases hlen : args.length < 2
  · simp [handle_ingreso, if_pos hlen]
  · simp only [handle_ingreso]
    rw [if_neg hlen]
    split
    · simp
    · exact ⟨rfl, Or.inr ⟨_, rfl⟩⟩

/-- State effect of handle_tope: the ledger is never touched, and the budget
store is either unchanged (query or validation failure) or overwritten at
this phone's key. -/
theorem handle_tope_state (st : State) (phone : Int) (args : List String) :
    (handle_tope st phone args).1.ledger = st.ledger ∧
    ((handle_tope st phone args).1 = st ∨
      (args ≠ [] ∧ ∃ v, (handle_tope st phone args).1.budgets = setAssoc st.budgets phone v)) := by
  cases args with
  | nil =>
    by_cases hb : pyTruthyInt (get_budget st phone) = true <;> simp [handle_tope, hb]
  | cons a rest =>
    simp only [handle_tope, List.isEmpty_cons, Bool.false_eq_true, if_false]
    split
    · simp
    · exact ⟨rfl, Or.inr ⟨by simp, _, rfl⟩⟩

/-- C9: only record-expense, record-income, and budget-set-with-argument
mutate storage.  The recording commands leave the budget store unchanged and
at most append one ledger row (exactly one on success); budget-set leaves
the ledger unchanged and, when it mutates, overwrites exactly this phone's
budget, preserving every other key's binding; every remaining path — help,
unrecognized command, status query, budget query, and all validation-error
replies — leaves the state unchanged. -/
theorem claim9_mutation_frame (st : State) (env : Env) (phone : Int) (text : String) :
    (pySplit (pyLower text) = [] → (handle_message st env phone text).1 = st) ∧
    (∀ c rest, pySplit (pyLower text) = c :: rest →
      ((c = "gasto" ∨ c = "egreso" ∨ c = "ingreso" ∨ c = "entrada") →
        (handle_message st env phone text).1.budgets = st.budgets ∧
        ((handle_message st env phone text).1 = st ∨
          ∃ t, (handle_message st env phone text).1.ledger = st.ledger ++ [t])) ∧
      ((c = "tope" ∨ c = "presupuesto") →
        (handle_message st env phone text).1.ledger = st.ledger ∧
        ((handle_message st env phone text).1 = st ∨
          (rest ≠ [] ∧ ∃ v,
            (handle_message st env phone text).1.budgets = setAssoc st.budgets phone v ∧
            ((handle_message st env phone text).1.budgets.lookup phone = some v ∧
              ∀ p, p ≠ phone →
                (handle_message st env phone text).1.budgets.lookup p =
                  st.budgets.lookup p)))) ∧
      (c ∉ (["gasto", "egreso", "ingreso", "entrada", "tope", "presupuesto"] : List String) →
        (handle_message st env phone text).1 = st)) := by
  constructor
  · intro h
    simp [handle_message, h]
  · intro c rest h
    refine ⟨?_, ?_, ?_⟩
    · rintro (rfl | rfl | rfl | rfl)
      · have hm : handle_message st env phone text = handle_gasto st env phone rest := by
          simp [handle_message, h]
        rw [hm]
        exact handle_gasto_state st env phone rest
      · have hm : handle_message st env phone text = handle_gasto st env phone rest := by
          simp [handle_message, h]
        rw [hm]
        exact handle_gasto_state st env phone rest
      · have hm : handle_message st env phone text = handle_ingreso st env phone rest := by
          simp [handle_message, h]
        rw [hm]
        exact handle_ingreso_state st env phone rest
      · have hm : handle_message st env phone text = handle_ingreso st env phone rest := by
          simp [handle_message, h]
        rw [hm]
        exact handle_ingreso_state st env phone rest
    · rintro (rfl | rfl) <;>
      · have hm : handle_message st env phone text = handle_tope st phone rest := by
          simp [handle_message, h]
        rw [hm]
        obtain ⟨hl, hcase⟩ := handle_tope_state st phone rest
        refine ⟨hl, ?_⟩
        rcases hcase with hcase | ⟨hne, v, hv⟩
        · exact Or.inl hcase
        · refine Or.inr ⟨hne, v, hv, ?_, ?_⟩
          · rw [hv]
            exact lookup_setAssoc_self st.budgets phone v
          · intro p hp
            rw [hv]
            exact lookup_setAssoc_ne st.budgets phone v p hp
    · intro hnot
      simp only [List.mem_cons, List.not_mem_nil, or_false, not_or] at hnot
      obtain ⟨n1, n2, n3, n4, n5, n6⟩ := hnot
      have e1 : (c == "gasto") = false := beq_eq_false_iff_ne.mpr n1
      have e2 : (c == "egreso") = false := beq_eq_false_iff_ne.mpr n2
      have e3 : (c == "ingreso") = false := beq_eq_false_iff_ne.mpr n3
      have e4 : (c == "entrada") = false := beq_eq_false_iff_ne.mpr n4
      have e5 : (c == "tope") = false := beq_eq_false_iff_ne.mpr n5
      have e6 : (c == "presupuesto") = false := beq_eq_false_iff_ne.mpr n6
      by_cases h7 : c = "estado"
      · subst h7
        simp [handle_message, h]
      by_cases h8 : c = "resumen"
      · subst h8
        simp [handle_message, h]
      by_cases h9 : c = "ayuda"
      · subst h9
        simp [handle_message, h]
      have e7 : (c == "estado") = false := beq_eq_false_iff_ne.mpr h7
      have e8 : (c == "resumen") = false := beq_eq_false_iff_ne.mpr h8
      have e9 : (c == "ayuda") = false := beq_eq_false_iff_ne.mpr h9
      simp [handle_message, h, e1, e2, e3, e4, e5, e6, e7, e8, e9]

/-- Witness for C9: a successful "tope 9" mutation from a nonempty store. -/
theorem claim9_mutation_frame_witness :
    (handle_message ⟨[], [(58, 7)]⟩ ⟨⟨2026, 10⟩, "t1"⟩ 57 "tope 9").1.ledger = [] ∧
    ((handle_message ⟨[], [(58, 7)]⟩ ⟨⟨2026, 10⟩, "t1"⟩ 57 "tope 9").1 = ⟨[], [(58, 7)]⟩ ∨
      (["9"] ≠ ([] : List String) ∧ ∃ v,
        (handle_message ⟨[], [(58, 7)]⟩ ⟨⟨2026, 10⟩, "t1"⟩ 57 "tope 9").1.budgets =
          setAssoc [(58, 7)] 57 v ∧
        ((handle_message ⟨[], [(58, 7)]⟩ ⟨⟨2026, 10⟩, "t1"⟩ 57 "tope 9").1.budgets.lookup 57 =
            some v ∧
          ∀ p, p ≠ 57 →
            (handle_message ⟨[], [(58, 7)]⟩ ⟨⟨2026, 10⟩, "t1"⟩ 57 "tope 9").1.budgets.lookup p =
              List.lookup p [(58, 7)]))) :=
  ((claim9_mutation_frame ⟨[], [(58, 7)]⟩ ⟨⟨2026, 10⟩, "t1"⟩ 57 "tope 9").2 "tope" ["9"]
    (by decide)).2.1 (Or.inl rfl)

/-- C2: monthly-expense aggregation considers exactly the ledger rows whose
phone, type = "egreso", and period match; each row contributes its amount
times its stored exchange rate when its currency is USD and its amount
unchanged otherwise (cantidad_cop); the total is the sum of those converted
amounts; the by-category mapping binds exactly the categories having a
matching row to that category's sum; and the result is (0, {}) when no row
matches. -/
theorem claim2_monthly_expenses (ledger : List Txn) (phone : Int) (year month : Nat) :
    (get_monthly_expenses_cop ledger phone year month).1 =
      ((ledger.filter (expenseRow phone year month)).map cantidad_cop).sum ∧
    (∀ c, ((get_monthly_expenses_cop ledger phone year month).2.lookup c).isSome = true ↔
      ∃ t ∈ ledger.filter (expenseRow phone year month), t.categoria = c) ∧
    (∀ c v, (get_monthly_expenses_cop ledger phone year month).2.lookup c = some v →
      v = (((ledger.filter (expenseRow phone year month)).filter
            (fun t => t.categoria == c)).map cantidad_cop).sum) ∧
    (ledger.filter (expenseRow phone year month) = [] →
      get_monthly_expenses_cop ledger phone year month = (0, [])) := by
  simp only [get_monthly_expenses_cop]
  by_cases hl : ledger.isEmpty = true
  · have h0 : ledger = [] := by rwa [List.isEmpty_iff] at hl
    subst h0
    simp [List.lookup]
  · rw [if_neg hl]
    by_cases he : (ledger.filter (expenseRow phone year month)).isEmpty = true
    · have hfe : ledger.filter (expenseRow phone year month) = [] := List.isEmpty_iff.mp he
      rw [if_pos he]
      refine ⟨by simp [hfe], ?_, ?_, fun _ => rfl⟩
      · intro c
        simp [hfe, List.lookup]
      · intro c v hv
        simp [List.lookup] at hv
    · rw [if_neg he]
      refine ⟨rfl, ?_, ?_, ?_⟩
      · intro c
        rw [lookup_map_pair]
        simp only [List.mem_dedup, List.mem_map]
        by_cases hc : ∃ t ∈ ledger.filter (expenseRow phone year month), t.categoria = c
        · simp [hc]
        · simp [hc]
      · intro c v hv
        rw [lookup_map_pair] at hv
        by_cases hc :
            c ∈ (List.map (fun t => t.categoria) (ledger.filter (expenseRow phone year month))).dedup
        · simp only [if_pos hc, Option.some.injEq] at hv
          exact hv.symm
        · simp [if_neg hc] at hv
      · intro hfe
        exact absurd (List.isEmpty_iff.mpr hfe) (by simpa using he)

/-- A small concrete ledger for the C2 witness: four matching expense rows
(one in USD), one income row, one other phone, one other month. -/
def ledgerW : List Txn :=
  [⟨"a", 2026, 10, "egreso", 20, "USD", 3900, "tec", "", 57⟩,
   ⟨"b", 2026, 10, "egreso", 100, "COP", 3900, "casa", "", 57⟩,
   ⟨"c", 2026, 10, "egreso", 50, "COP", 3900, "tec", "", 57⟩,
   ⟨"d", 2026, 9, "egreso", 7, "COP", 3900, "old", "", 57⟩,
   ⟨"e", 2026, 10, "ingreso", 7, "COP", 3900, "sal", "", 57⟩,
   ⟨"f", 2026, 10, "egreso", 7, "COP", 3900, "other", "", 58⟩]

/-- Witness for C2: the stored-rate USD conversion shows up in the "tec"
category sum on the concrete ledger. -/
theorem claim2_monthly_expenses_witness :
    (78050 : Int) = (((ledgerW.filter (expenseRow 57 2026 10)).filter
      (fun t => t.categoria == "tec")).map cantidad_cop).sum :=
  (claim2_monthly_expenses ledgerW 57 2026 10).2.2.1 "tec" 78050 (by decide)

/-- Concrete state for C7: budget 2,000,000 and one matching 2,500,000
expense. -/
def stC7 : State :=
  ⟨[⟨"a", 2026, 10, "egreso", 2500000, "COP", 3900, "casa", "", 57⟩], [(57, 2000000)]⟩

/-- C7: with a stored budget, the line after the spent line is the
"Disponible" line when remaining ≥ 0 and the "EXCEDIDO por" line showing
|remaining| when remaining < 0; in particular, budget 2,000,000 with spent
2,500,000 gives remaining −500000 and the report carries the exceeded line
with the value 500,000. -/
theorem claim7_remaining_line :
    (∀ (status : BudgetStatus) (now : Date), status.has_budget = true →
      (format_budget_lines status now).getD 3 "" =
        (if 0 ≤ status.remaining then "Disponible: $" ++ commify status.remaining ++ " COP"
         else "EXCEDIDO por: $" ++ commify |status.remaining| ++ " COP")) ∧
    ((get_budget_status stC7 ⟨2026, 10⟩ 57).remaining = -500000 ∧
      "EXCEDIDO por: $500,000 COP" ∈
        format_budget_lines (get_budget_status stC7 ⟨2026, 10⟩ 57) ⟨2026, 10⟩) := by
  constructor
  · intro status now hb
    by_cases hr : 0 ≤ status.remaining
    · simp [format_budget_lines, hb, hr]
    · simp [format_budget_lines, hb, hr]
  · exact ⟨by decide, by decide⟩

/-- Witness for C7 at the concrete over-budget status. -/
theorem claim7_remaining_line_witness :
    (format_budget_lines (get_budget_status stC7 ⟨2026, 10⟩ 57) ⟨2026, 10⟩).getD 3 "" =
      (if 0 ≤ (get_budget_status stC7 ⟨2026, 10⟩ 57).remaining then
        "Disponible: $" ++ commify (get_budget_status stC7 ⟨2026, 10⟩ 57).remaining ++ " COP"
      else
        "EXCEDIDO por: $" ++
          commify |(get_budget_status stC7 ⟨2026, 10⟩ 57).remaining| ++ " COP") :=
  claim7_remaining_line.1 (get_budget_status stC7 ⟨2026, 10⟩ 57) ⟨2026, 10⟩ (by decide)

/-- Concrete state for C8: three expense categories "z", "a", "m". -/
def stC8 : State :=
  ⟨[⟨"a", 2026, 10, "egreso", 1, "COP", 3900, "z", "", 57⟩,
    ⟨"b", 2026, 10, "egreso", 2, "COP", 3900, "a", "", 57⟩,
    ⟨"c", 2026, 10, "egreso", 3, "COP", 3900, "m", "", 57⟩], []⟩

/-- C8: the by-category block is rendered exactly when some category has
spend (the report is the category-free report plus the block), the block
lists one line per category in sorted order — sortPairs permutes the
mapping and is pairwise ordered by a comparison that orders by label — and
categories z, a, m render in the order a, m, z. -/
theorem claim8_category_block :
    (∀ (status : BudgetStatus) (now : Date),
      format_budget_lines status now =
        format_budget_lines { status with by_category := [] } now ++
          (if status.by_category.isEmpty then []
           else ["", "Por categoria:"] ++ (sortPairs status.by_category).map catLine)) ∧
    (∀ l : List (String × Int), List.Perm (sortPairs l) l) ∧
    (∀ l : List (String × Int), (sortPairs l).Pairwise (fun p q => pairLeB p q = true)) ∧
    (∀ p q : String × Int, pairLeB p q = true → strLtB p.1 q.1 = true ∨ p.1 = q.1) ∧
    ((sortPairs (get_budget_status stC8 ⟨2026, 10⟩ 57).by_category).map Prod.fst =
      ["a", "m", "z"]) := by
  refine ⟨?_, sortPairs_perm, sortPairs_pairwise, ?_, by decide⟩
  · intro status now
    by_cases hb : status.has_budget = true <;>
      by_cases hc : status.by_category.isEmpty = true <;>
        simp [format_budget_lines, hb, hc]
  · intro p q hpq
    rcases Bool.or_eq_true _ _ |>.mp hpq with h | h
    · exact Or.inl h
    · exact Or.inr (beq_iff_eq.mp (Bool.and_eq_true _ _ |>.mp h).1)

/-- Witness for C8: the comparison applied to a concrete ordered pair. -/
theorem claim8_category_block_witness :
    strLtB "a" "b" = true ∨ "a" = "b" :=
  claim8_category_block.2.2.2.1 ("a", 1) ("b", 2) (by decide)
